import Mathlib

/-!
Verification of `src/python/quality_runner.py` (quality runners of the VMAF
feature-fusion engine).  Machine floats are idealized as exact rationals `ℚ`;
result dictionaries are modelled as partial maps `String → Option (List ℚ)`;
the external libsvm regression model is an opaque parameter (a pure function,
as the design document states inference is pure and stateless).
-/

/-- A Result's score dictionary: score-key to per-frame series. -/
abbrev ResultDict := String → Option (List ℚ)

namespace QualityRunner

/-- `QualityRunner.get_scores_key`: `cls.TYPE + '_scores'`. -/
def get_scores_key (TYPE : String) : String := TYPE ++ "_scores"

/-- `QualityRunner.get_score_key`: `cls.TYPE + '_score'`. -/
def get_score_key (TYPE : String) : String := TYPE ++ "_score"

end QualityRunner

namespace VmafQualityRunner

/-- `VmafQualityRunner.TYPE`. -/
def TYPE : String := "VMAF"

/-- `FEATURE_RESCALE_DICT`: feature score-key to `(lower, upper)` clip bound. -/
def FEATURE_RESCALE_DICT : String → Option (ℚ × ℚ) := fun k =>
  if k = "VMAF_feature_vif_scores" then some (0, 1)
  else if k = "VMAF_feature_adm_scores" then some (2/5, 1)
  else if k = "VMAF_feature_ansnr_scores" then some (10, 50)
  else if k = "VMAF_feature_motion_scores" then some (0, 20)
  else none

/-- `SVM_MODEL_ORDERED_SCORES_KEYS`: the feature order model_V8a was trained with. -/
def SVM_MODEL_ORDERED_SCORES_KEYS : List String :=
  ["VMAF_feature_vif_scores",
   "VMAF_feature_adm_scores",
   "VMAF_feature_ansnr_scores",
   "VMAF_feature_motion_scores"]

/-- `np.clip(v, lo, hi)` (scalar case): `np.minimum(hi, np.maximum(v, lo))`. -/
def np_clip (v lo hi : ℚ) : ℚ := min hi (max v lo)

/-- `VmafQualityRunner._rescale` on one value: clip into the bound, then map
linearly onto `[0, 1]`. -/
def _rescale (v : ℚ) (lower_upper_bound : ℚ × ℚ) : ℚ :=
  (np_clip v lower_upper_bound.1 lower_upper_bound.2 - lower_upper_bound.1) /
    (lower_upper_bound.2 - lower_upper_bound.1)

/-- `VmafQualityRunner._rescale` on a per-frame series (numpy elementwise). -/
def rescaleList (vals : List ℚ) (lower_upper_bound : ℚ × ℚ) : List ℚ :=
  vals.map (fun v => _rescale v lower_upper_bound)

/-- The final clamp of `_post_correction`: `if score > 100: 100 elif score < 0: 0`. -/
def clampScore (score : ℚ) : ℚ :=
  if score > 100 then 100 else if score < 0 then 0 else score

/-- `VmafQualityRunner._post_correction`: when `motion > 12` multiply the score
by `((min(motion, 20) - 12) * 0.015 + 1)`, then clamp into `[0, 100]`. -/
def _post_correction (motion score : ℚ) : ℚ :=
  clampScore
    (if motion > 12 then
      score * (((if motion > 20 then 20 else motion) - 12) * (3/200) + 1)
    else score)

/-- One step of the `for scores_key in SVM_MODEL_ORDERED_SCORES_KEYS` loop:
`_rescale(feature_result[scores_key], FEATURE_RESCALE_DICT[scores_key])`
(`none` models the `KeyError` on a missing key). -/
def rescaleFor (feature_result : ResultDict) (scores_key : String) :
    Option (List ℚ) :=
  match feature_result scores_key, FEATURE_RESCALE_DICT scores_key with
  | some vals, some bound => some (rescaleList vals bound)
  | _, _ => none

/-- `ordered_scaled_scores_list` as built by the loop in `_run_on_asset`. -/
def ordered_scaled_scores_list (feature_result : ResultDict) :
    Option (List (List ℚ)) :=
  SVM_MODEL_ORDERED_SCORES_KEYS.mapM (rescaleFor feature_result)

/-- Python `zip` over four lists (`zip(*ordered_scaled_scores_list)` with the
four rescaled series): truncates at the shortest list. -/
def zip4 : List ℚ → List ℚ → List ℚ → List ℚ → List (ℚ × ℚ × ℚ × ℚ)
  | a :: as, b :: bs, c :: cs, d :: ds => (a, b, c, d) :: zip4 as bs cs ds
  | _, _, _, _ => []

/-- The per-frame `(vif, adm, ansnr, motion)` tuples iterated by the
`for score_vector in zip(*ordered_scaled_scores_list)` loop. -/
def frame_tuples (feature_result : ResultDict) :
    Option (List (ℚ × ℚ × ℚ × ℚ)) :=
  match ordered_scaled_scores_list feature_result with
  | some [vifs, adms, ansnrs, motions] => some (zip4 vifs adms ansnrs motions)
  | _ => none

/-- The vector `[vif, adm, ansnr, motion]` built as `xs` for one frame. -/
def xsOfTuple (t : ℚ × ℚ × ℚ × ℚ) : List ℚ := [t.1, t.2.1, t.2.2.1, t.2.2.2]

/-- The per-frame vectors handed to `svmutil.svm_predict` across the run. -/
def frame_vectors (feature_result : ResultDict) : Option (List (List ℚ)) :=
  (frame_tuples feature_result).map (List.map xsOfTuple)

/-- The `scores` list of `VmafQualityRunner._run_on_asset`: per frame, predict
on `xs = [vif, adm, ansnr, motion]` then `_post_correction(motion, score)`.
The libsvm model is the opaque pure function `predict`. -/
def vmafScores (predict : List ℚ → ℚ) (feature_result : ResultDict) :
    Option (List ℚ) :=
  (frame_tuples feature_result).map
    (List.map (fun t => _post_correction t.2.2.2 (predict (xsOfTuple t))))

/-- `VmafQualityRunner._run_on_asset`'s final dictionary: all feature entries,
plus the fused scores under `get_scores_key()`. -/
def _run_on_asset (predict : List ℚ → ℚ) (feature_result : ResultDict) :
    Option ResultDict :=
  (vmafScores predict feature_result).map (fun scores k =>
    if k = QualityRunner.get_scores_key TYPE then some scores
    else feature_result k)

end VmafQualityRunner

namespace VmaftQualityRunner

/-- `VmaftQualityRunner.TYPE`. -/
def TYPE : String := "VMAFT"

/-- `np.clip(ys_pred, 0.0, 100.0)` applied to the prediction series.
`get_perframe_xs` and the model are opaque parameters: they live in
`train_test_model.py`, which is outside the sources at hand; per the design
document the model maps fixed-order per-frame feature vectors to scalar
predictions, purely and statelessly. -/
def ys_pred_clipped (get_perframe_xs : ResultDict → List (List ℚ))
    (predictList : List (List ℚ) → List ℚ) (feature_result : ResultDict) :
    List ℚ :=
  (predictList (get_perframe_xs feature_result)).map
    (fun y => VmafQualityRunner.np_clip y 0 100)

/-- `VmaftQualityRunner._run_on_asset`'s final dictionary: all feature entries,
plus the clipped predictions under `get_scores_key()`; no post-correction. -/
def _run_on_asset (get_perframe_xs : ResultDict → List (List ℚ))
    (predictList : List (List ℚ) → List ℚ) (feature_result : ResultDict) :
    ResultDict := fun k =>
  if k = QualityRunner.get_scores_key TYPE then
    some (ys_pred_clipped get_perframe_xs predictList feature_result)
  else feature_result k

end VmaftQualityRunner

namespace PsnrQualityRunner

/-- `PsnrQualityRunner.TYPE`. -/
def TYPE : String := "PSNR"

/-- Characters admitted by the second capture group `[0-9.-]`. -/
def isValChar (c : Char) : Bool := c.isDigit || c = '.' || c = '-'

/-- `re.match(r"psnr: ([0-9]+) ([0-9.-]+)", line)`: anchored at the start of
the line, a literal `"psnr: "`, a maximal nonempty digit run (group 1), a
space, a maximal nonempty run of `[0-9.-]` (group 2); anything may follow.
Returns the two captured groups. -/
def matchLine (line : List Char) : Option (List Char × List Char) :=
  match line with
  | 'p' :: 's' :: 'n' :: 'r' :: ':' :: ' ' :: rest =>
    let ds := rest.takeWhile Char.isDigit
    if ds.isEmpty then none
    else
      match rest.dropWhile Char.isDigit with
      | ' ' :: rest2 =>
        let vs := rest2.takeWhile isValChar
        if vs.isEmpty then none else some (ds, vs)
      | _ => none
  | _ => none

/-- Python `int` on a nonempty digit string (group 1 of the pattern). -/
def natOfDigits (ds : List Char) : Nat :=
  ds.foldl (fun acc c => 10 * acc + (c.toNat - '0'.toNat)) 0

/-- Python `float` on an unsigned string made of `[0-9.]`: either a nonempty
digit run, or `digits '.' digits` with at least one digit in total; any other
shape (extra dots, stray minus, no digits) raises `ValueError`, modelled as
`none`. -/
def pyFloatUnsigned (s : List Char) : Option ℚ :=
  let ip := s.takeWhile Char.isDigit
  match s.dropWhile Char.isDigit with
  | [] => if ip.isEmpty then none else some (natOfDigits ip : ℚ)
  | '.' :: fp =>
    if fp.all Char.isDigit && !(ip.isEmpty && fp.isEmpty) then
      some ((natOfDigits ip : ℚ) + (natOfDigits fp : ℚ) / (10 ^ fp.length))
    else none
  | _ => none

/-- Python `float` on a string made of `[0-9.-]` (group 2 of the pattern):
an optional leading minus sign, then an unsigned decimal literal. -/
def pyFloat (s : List Char) : Option ℚ :=
  match s with
  | '-' :: rest => (pyFloatUnsigned rest).map (fun q => -q)
  | _ => pyFloatUnsigned s

/-- The line-reading loop of `PsnrQualityRunner._get_quality_scores`: skip
lines the pattern does not match; on a match, `assert cur_idx == counter`
(failure modelled as `none`), convert group 2 with `float` (a `ValueError`
modelled as `none`), append, and increment the counter. -/
def parseLoop : List (List Char) → Nat → Option (List ℚ)
  | [], _ => some []
  | line :: rest, counter =>
    match matchLine line with
    | none => parseLoop rest counter
    | some (ds, vs) =>
      if natOfDigits ds = counter then
        match pyFloat vs with
        | some v => (parseLoop rest (counter + 1)).map (fun tl => v :: tl)
        | none => none
      else none

/-- `PsnrQualityRunner._get_quality_scores` on the log's lines: run the loop
from counter 0, then `assert len(psnr_scores) != 0`. -/
def _get_quality_scores (lines : List (List Char)) : Option (List ℚ) :=
  match parseLoop lines 0 with
  | some scores => if scores.isEmpty then none else some scores
  | none => none

/-- The returned dictionary `{get_scores_key(): psnr_scores}`. -/
def quality_result (lines : List (List Char)) : Option ResultDict :=
  (_get_quality_scores lines).map (fun scores k =>
    if k = QualityRunner.get_scores_key TYPE then some scores else none)

/-- `lines2` is `lines1` with extra lines inserted anywhere, every inserted
line failing the `psnr:` pattern. -/
inductive Interleaved : List (List Char) → List (List Char) → Prop
  | nil : Interleaved [] []
  | keep (l : List Char) {t t' : List (List Char)} :
      Interleaved t t' → Interleaved (l :: t) (l :: t')
  | extra (l : List Char) {t t' : List (List Char)} :
      matchLine l = none → Interleaved t t' → Interleaved t (l :: t')

end PsnrQualityRunner

/-! Concrete inputs used by witnesses and counterexamples.  The feature
dictionary is the two-frame scenario of the design document: `vif = [0.5, 0.9]`,
`adm = [0.6, 0.8]`, `ansnr = [30, 40]`, `motion = [5, 15]`. -/

/-- A two-frame assembled feature Result. -/
def exampleFeatureDict : ResultDict := fun k =>
  if k = "VMAF_feature_vif_scores" then some [1/2, 9/10]
  else if k = "VMAF_feature_adm_scores" then some [3/5, 4/5]
  else if k = "VMAF_feature_ansnr_scores" then some [30, 40]
  else if k = "VMAF_feature_motion_scores" then some [5, 15]
  else none

/-- A model that predicts 50 for every frame. -/
def constPredict50 : List ℚ → ℚ := fun _ => 50

/-- A log line matching the pattern with frame index 0 and value 25. -/
def goodLine : List Char := ['p', 's', 'n', 'r', ':', ' ', '0', ' ', '2', '5']

/-- A log line the pattern does not match. -/
def noiseLineA : List Char := ['h', 'e', 'l', 'l', 'o']

/-- Another log line the pattern does not match (no space after the colon). -/
def noiseLineB : List Char := ['p', 's', 'n', 'r', ':', '7']

/-- A line matching the pattern with index 0 whose value group is `"-"`,
on which Python `float` raises `ValueError`. -/
def badValueLine : List Char := ['p', 's', 'n', 'r', ':', ' ', '0', ' ', '-']

/-! ## Helper lemmas -/

lemma clampScore_bounds (s : ℚ) :
    0 ≤ VmafQualityRunner.clampScore s ∧ VmafQualityRunner.clampScore s ≤ 100 := by
  unfold VmafQualityRunner.clampScore
  split_ifs <;> constructor <;> linarith

lemma np_clip_eq_clampScore (y : ℚ) :
    VmafQualityRunner.np_clip y 0 100 = VmafQualityRunner.clampScore y := by
  unfold VmafQualityRunner.np_clip VmafQualityRunner.clampScore
  rcases lt_or_le 100 y with h | h
  · rw [if_pos h, max_eq_left (by linarith), min_eq_left h.le]
  · rw [if_neg (not_lt.mpr h)]
    rcases lt_or_le y 0 with h2 | h2
    · rw [if_pos h2, max_eq_right h2.le, min_eq_right (by norm_num)]
    · rw [if_neg (not_lt.mpr h2), max_eq_left h2, min_eq_right h]

/-! ## C3 and C9: properties of the rescale map -/

/-- C3: for every bound pair `lo < hi`, `_rescale v (lo, hi)` equals
`(clip(v, lo, hi) - lo) / (hi - lo)`; it sends `lo` to 0 and `hi` to 1, every
value below `lo` to 0 and every value above `hi` to 1. -/
theorem C3_rescale_correct (v lo hi : ℚ) (h : lo < hi) :
    VmafQualityRunner._rescale v (lo, hi)
      = (VmafQualityRunner.np_clip v lo hi - lo) / (hi - lo) ∧
    VmafQualityRunner._rescale lo (lo, hi) = 0 ∧
    VmafQualityRunner._rescale hi (lo, hi) = 1 ∧
    (v < lo → VmafQualityRunner._rescale v (lo, hi) = 0) ∧
    (hi < v → VmafQualityRunner._rescale v (lo, hi) = 1) := by
  have hne : hi - lo ≠ 0 := sub_ne_zero.mpr (ne_of_gt h)
  unfold VmafQualityRunner._rescale VmafQualityRunner.np_clip
  refine ⟨rfl, ?_, ?_, ?_, ?_⟩
  · rw [max_self, min_eq_right h.le, sub_self, zero_div]
  · rw [max_eq_left h.le, min_self, div_self hne]
  · intro hv
    rw [max_eq_right hv.le, min_eq_right h.le, sub_self, zero_div]
  · intro hv
    rw [max_eq_left (le_of_lt (h.trans hv)), min_eq_left hv.le, div_self hne]

/-- Witness for C3 at `v = 7`, `lo = 2`, `hi = 4`. -/
theorem C3_rescale_correct_witness :
    (2 : ℚ) < 4 ∧
    (VmafQualityRunner._rescale 7 (2, 4)
        = (VmafQualityRunner.np_clip 7 2 4 - 2) / (4 - 2) ∧
      VmafQualityRunner._rescale 2 (2, 4) = 0 ∧
      VmafQualityRunner._rescale 4 (2, 4) = 1 ∧
      ((7 : ℚ) < 2 → VmafQualityRunner._rescale 7 (2, 4) = 0) ∧
      ((4 : ℚ) < 7 → VmafQualityRunner._rescale 7 (2, 4) = 1)) :=
  ⟨by norm_num, C3_rescale_correct 7 2 4 (by norm_num)⟩

/-- C9: `_rescale` is monotone nondecreasing in its input. -/
theorem C9_rescale_monotone (lo hi v1 v2 : ℚ) (hb : lo < hi) (hv : v1 ≤ v2) :
    VmafQualityRunner._rescale v1 (lo, hi) ≤ VmafQualityRunner._rescale v2 (lo, hi) := by
  unfold VmafQualityRunner._rescale VmafQualityRunner.np_clip
  dsimp only
  have hpos : (0 : ℚ) < hi - lo := sub_pos.mpr hb
  have hcl : min hi (max v1 lo) ≤ min hi (max v2 lo) :=
    min_le_min le_rfl (max_le_max hv le_rfl)
  exact (div_le_div_iff_of_pos_right hpos).mpr (by linarith)

/-- Witness for C9 at `lo = 0`, `hi = 20`, `v1 = 3`, `v2 = 17`. -/
theorem C9_rescale_monotone_witness :
    (0 : ℚ) < 20 ∧ (3 : ℚ) ≤ 17 ∧
    VmafQualityRunner._rescale 3 (0, 20) ≤ VmafQualityRunner._rescale 17 (0, 20) :=
  ⟨by norm_num, by norm_num, C9_rescale_monotone 0 20 3 17 (by norm_num) (by norm_num)⟩

/-! ## C4: post-correction boundary behavior -/

/-- C4: `_post_correction` at the boundary motion values: at motion 12 the
multiplier is 1 (only the clamp applies); at motion 20 the multiplier is 1.12;
at motion 25 the result equals the result at motion 20. -/
theorem C4_post_correction_boundary (s : ℚ) :
    VmafQualityRunner._post_correction 12 s = VmafQualityRunner.clampScore s ∧
    VmafQualityRunner._post_correction 20 s
      = VmafQualityRunner.clampScore (s * (28/25)) ∧
    VmafQualityRunner._post_correction 25 s = VmafQualityRunner._post_correction 20 s := by
  unfold VmafQualityRunner._post_correction
  norm_num

/-! ## Evaluation lemmas on the two-frame example -/

lemma rescaleFor_vif_eval :
    VmafQualityRunner.rescaleFor exampleFeatureDict "VMAF_feature_vif_scores"
      = some [1/2, 9/10] := by
  simp [VmafQualityRunner.rescaleFor, exampleFeatureDict, VmafQualityRunner.FEATURE_RESCALE_DICT,
    VmafQualityRunner.rescaleList, VmafQualityRunner._rescale, VmafQualityRunner.np_clip]
  norm_num

lemma rescaleFor_adm_eval :
    VmafQualityRunner.rescaleFor exampleFeatureDict "VMAF_feature_adm_scores"
      = some [1/3, 2/3] := by
  simp [VmafQualityRunner.rescaleFor, exampleFeatureDict, VmafQualityRunner.FEATURE_RESCALE_DICT,
    VmafQualityRunner.rescaleList, VmafQualityRunner._rescale, VmafQualityRunner.np_clip]
  norm_num

lemma rescaleFor_ansnr_eval :
    VmafQualityRunner.rescaleFor exampleFeatureDict "VMAF_feature_ansnr_scores"
      = some [1/2, 3/4] := by
  simp [VmafQualityRunner.rescaleFor, exampleFeatureDict, VmafQualityRunner.FEATURE_RESCALE_DICT,
    VmafQualityRunner.rescaleList, VmafQualityRunner._rescale, VmafQualityRunner.np_clip]
  norm_num

lemma rescaleFor_motion_eval :
    VmafQualityRunner.rescaleFor exampleFeatureDict "VMAF_feature_motion_scores"
      = some [1/4, 3/4] := by
  simp [VmafQualityRunner.rescaleFor, exampleFeatureDict, VmafQualityRunner.FEATURE_RESCALE_DICT,
    VmafQualityRunner.rescaleList, VmafQualityRunner._rescale, VmafQualityRunner.np_clip]
  norm_num

lemma ordered_eval : VmafQualityRunner.ordered_scaled_scores_list exampleFeatureDict
    = some [[1/2, 9/10], [1/3, 2/3], [1/2, 3/4], [1/4, 3/4]] := by
  rw [VmafQualityRunner.ordered_scaled_scores_list, VmafQualityRunner.SVM_MODEL_ORDERED_SCORES_KEYS]
  rw [List.mapM_cons, List.mapM_cons, List.mapM_cons, List.mapM_cons, List.mapM_nil]
  rw [rescaleFor_vif_eval, rescaleFor_adm_eval, rescaleFor_ansnr_eval, rescaleFor_motion_eval]
  rfl

lemma frame_tuples_eval : VmafQualityRunner.frame_tuples exampleFeatureDict
    = some [(1/2, 1/3, 1/2, 1/4), (9/10, 2/3, 3/4, 3/4)] := by
  unfold VmafQualityRunner.frame_tuples
  rw [ordered_eval]
  rfl

lemma frame_vectors_eval : VmafQualityRunner.frame_vectors exampleFeatureDict
    = some [[1/2, 1/3, 1/2, 1/4], [9/10, 2/3, 3/4, 3/4]] := by
  unfold VmafQualityRunner.frame_vectors
  rw [frame_tuples_eval]
  rfl

lemma vmafScores_eval : VmafQualityRunner.vmafScores constPredict50 exampleFeatureDict
    = some [50, 50] := by
  unfold VmafQualityRunner.vmafScores
  rw [frame_tuples_eval]
  norm_num [VmafQualityRunner._post_correction, VmafQualityRunner.clampScore,
    VmafQualityRunner.xsOfTuple, constPredict50]

/-! ## C5: every stored fused score lies in `[0, 100]` -/

/-- C5: every per-frame fused score produced by the VMAF fusion path and by
the VMAFT fusion path lies in `[0, 100]`; the clamp sends a value below 0 to
0, a value above 100 to 100, and leaves a value in `[0, 100]` unchanged (this
holds both for the clamp inside `_post_correction` and for the
`np.clip(ys_pred, 0, 100)` of the VMAFT runner). -/
theorem C5_scores_clamped (predict : List ℚ → ℚ) (fd : ResultDict)
    (vscores : List ℚ) (getxs : ResultDict → List (List ℚ))
    (predictList : List (List ℚ) → List ℚ) (fd2 : ResultDict)
    (h : VmafQualityRunner.vmafScores predict fd = some vscores) :
    (∃ res, VmafQualityRunner._run_on_asset predict fd = some res ∧
      res (QualityRunner.get_scores_key VmafQualityRunner.TYPE) = some vscores) ∧
    (∀ s ∈ vscores, 0 ≤ s ∧ s ≤ 100) ∧
    (VmaftQualityRunner._run_on_asset getxs predictList fd2
        (QualityRunner.get_scores_key VmaftQualityRunner.TYPE)
      = some (VmaftQualityRunner.ys_pred_clipped getxs predictList fd2)) ∧
    (∀ s ∈ VmaftQualityRunner.ys_pred_clipped getxs predictList fd2,
      0 ≤ s ∧ s ≤ 100) ∧
    (∀ p : ℚ,
      (p < 0 → VmafQualityRunner.clampScore p = 0) ∧
      (100 < p → VmafQualityRunner.clampScore p = 100) ∧
      (0 ≤ p → p ≤ 100 → VmafQualityRunner.clampScore p = p) ∧
      VmafQualityRunner.np_clip p 0 100 = VmafQualityRunner.clampScore p) := by
  refine ⟨⟨fun k =>
      if k = QualityRunner.get_scores_key VmafQualityRunner.TYPE then some vscores
      else fd k, ?_, if_pos rfl⟩, ?_, if_pos rfl, ?_, ?_⟩
  · unfold VmafQualityRunner._run_on_asset
    rw [h, Option.map_some']
  · intro s hs
    unfold VmafQualityRunner.vmafScores at h
    obtain ⟨ts, -, hmap⟩ := Option.map_eq_some'.mp h
    subst hmap
    obtain ⟨t, -, rfl⟩ := List.mem_map.mp hs
    exact clampScore_bounds _
  · intro s hs
    unfold VmaftQualityRunner.ys_pred_clipped at hs
    obtain ⟨y, -, rfl⟩ := List.mem_map.mp hs
    rw [np_clip_eq_clampScore]
    exact clampScore_bounds y
  · intro p
    refine ⟨?_, ?_, ?_, np_clip_eq_clampScore p⟩
    · intro hp
      unfold VmafQualityRunner.clampScore
      rw [if_neg (by linarith), if_pos hp]
    · intro hp
      unfold VmafQualityRunner.clampScore
      rw [if_pos hp]
    · intro h0 h100
      unfold VmafQualityRunner.clampScore
      rw [if_neg (by linarith), if_neg (by linarith)]

/-- Witness for C5 on the two-frame example with a constant-50 model, and a
VMAFT model predicting one out-of-range value on each side. -/
theorem C5_scores_clamped_witness :
    VmafQualityRunner.vmafScores constPredict50 exampleFeatureDict = some [50, 50] ∧
    ((∃ res, VmafQualityRunner._run_on_asset constPredict50 exampleFeatureDict = some res ∧
       res (QualityRunner.get_scores_key VmafQualityRunner.TYPE) = some [50, 50]) ∧
     (∀ s ∈ [(50 : ℚ), 50], 0 ≤ s ∧ s ≤ 100) ∧
     (VmaftQualityRunner._run_on_asset (fun _ => [[1], [2]]) (fun _ => [-5, 250])
         exampleFeatureDict (QualityRunner.get_scores_key VmaftQualityRunner.TYPE)
       = some (VmaftQualityRunner.ys_pred_clipped (fun _ => [[1], [2]])
           (fun _ => [-5, 250]) exampleFeatureDict)) ∧
     (∀ s ∈ VmaftQualityRunner.ys_pred_clipped (fun _ => [[1], [2]])
         (fun _ => [-5, 250]) exampleFeatureDict, 0 ≤ s ∧ s ≤ 100) ∧
     (∀ p : ℚ,
       (p < 0 → VmafQualityRunner.clampScore p = 0) ∧
       (100 < p → VmafQualityRunner.clampScore p = 100) ∧
       (0 ≤ p → p ≤ 100 → VmafQualityRunner.clampScore p = p) ∧
       VmafQualityRunner.np_clip p 0 100 = VmafQualityRunner.clampScore p)) :=
  ⟨vmafScores_eval,
   C5_scores_clamped constPredict50 exampleFeatureDict [50, 50]
     (fun _ => [[1], [2]]) (fun _ => [-5, 250]) exampleFeatureDict vmafScores_eval⟩

/-! ## C6: the VMAFT runner applies no motion post-correction -/

/-- C6: every per-frame score stored by `VmaftQualityRunner._run_on_asset` is
exactly the raw model prediction for that frame clamped into `[0, 100]` — no
motion-driven multiplier is ever applied. -/
theorem C6_vmaft_raw_clamp (getxs : ResultDict → List (List ℚ))
    (predictList : List (List ℚ) → List ℚ) (fd : ResultDict) (i : ℕ) (y : ℚ)
    (hy : (predictList (getxs fd))[i]? = some y) :
    VmaftQualityRunner._run_on_asset getxs predictList fd
        (QualityRunner.get_scores_key VmaftQualityRunner.TYPE)
      = some (VmaftQualityRunner.ys_pred_clipped getxs predictList fd) ∧
    (VmaftQualityRunner.ys_pred_clipped getxs predictList fd)[i]?
      = some (VmafQualityRunner.clampScore y) := by
  constructor
  · unfold VmaftQualityRunner._run_on_asset
    rw [if_pos rfl]
  · unfold VmaftQualityRunner.ys_pred_clipped
    rw [List.getElem?_map, hy, Option.map_some', np_clip_eq_clampScore]

/-- Witness for C6: a two-frame run whose raw predictions are 120 and 55. -/
theorem C6_vmaft_raw_clamp_witness :
    ((fun _ : List (List ℚ) => [(120 : ℚ), 55])
        ((fun _ : ResultDict => ([] : List (List ℚ))) exampleFeatureDict))[0]?
      = some (120 : ℚ) ∧
    (VmaftQualityRunner._run_on_asset (fun _ => []) (fun _ => [120, 55]) exampleFeatureDict
        (QualityRunner.get_scores_key VmaftQualityRunner.TYPE)
      = some (VmaftQualityRunner.ys_pred_clipped (fun _ => []) (fun _ => [120, 55])
          exampleFeatureDict) ∧
     (VmaftQualityRunner.ys_pred_clipped (fun _ => []) (fun _ => [120, 55])
        exampleFeatureDict)[0]?
      = some (VmafQualityRunner.clampScore 120)) :=
  ⟨rfl,
   C6_vmaft_raw_clamp (fun _ => []) (fun _ => [120, 55]) exampleFeatureDict 0 120 rfl⟩

/-! ## C1: what drives the post-correction in the fusion loop -/

/-- C1: in `_run_on_asset` the value passed to `_post_correction` is the
rescaled motion, not the raw one.  On the two-frame example (raw motion 5 and
15, model constant at 50) the produced scores are `[50, 50]`: frame 1, whose
raw motion is 15, receives no multiplier — even though applying
`_post_correction` to the raw motion 15 would give `50 * 1.045 = 52.25`. -/
theorem C1_correction_motion_exhibit :
    VmafQualityRunner.vmafScores constPredict50 exampleFeatureDict = some [50, 50] ∧
    VmafQualityRunner.vmafScores constPredict50 exampleFeatureDict ≠ some [50, 209/4] ∧
    VmafQualityRunner._post_correction 15 50 = 209/4 := by
  refine ⟨vmafScores_eval, ?_, ?_⟩
  · rw [vmafScores_eval]
    intro hcon
    simp only [Option.some.injEq, List.cons.injEq] at hcon
    exact absurd hcon.2.1 (by norm_num)
  · norm_num [VmafQualityRunner._post_correction, VmafQualityRunner.clampScore]

/-! ## C2: the vector fed to the regression model -/

/-- C2 (counterexample): on the two-frame example the per-frame vectors fed to
the model are the four-element `[vif, adm, ansnr, motion]` rescaled vectors,
not the three-element `[vif, adm, ansnr]` vectors the claim asserts. -/
theorem C2_counterexample_motion_included :
    VmafQualityRunner.frame_vectors exampleFeatureDict
      = some [[1/2, 1/3, 1/2, 1/4], [9/10, 2/3, 3/4, 3/4]] ∧
    VmafQualityRunner.frame_vectors exampleFeatureDict
      ≠ some [[1/2, 1/3, 1/2], [9/10, 2/3, 3/4]] := by
  refine ⟨frame_vectors_eval, ?_⟩
  rw [frame_vectors_eval]
  intro hcon
  simp only [Option.some.injEq, List.cons.injEq] at hcon
  exact absurd hcon.1.2.2.2 (by simp)

lemma zip4_getElem (as bs cs ds : List ℚ) (i : ℕ) (a b c d : ℚ)
    (ha : as[i]? = some a) (hb : bs[i]? = some b) (hc : cs[i]? = some c)
    (hd : ds[i]? = some d) :
    (VmafQualityRunner.zip4 as bs cs ds)[i]? = some (a, b, c, d) := by
  induction as generalizing bs cs ds i with
  | nil => simp at ha
  | cons x xs ih =>
    cases bs with
    | nil => simp at hb
    | cons y ys =>
      cases cs with
      | nil => simp at hc
      | cons z zs =>
        cases ds with
        | nil => simp at hd
        | cons w ws =>
          cases i with
          | zero =>
            simp only [List.getElem?_cons_zero, Option.some.injEq] at ha hb hc hd
            subst ha; subst hb; subst hc; subst hd
            unfold VmafQualityRunner.zip4
            rw [List.getElem?_cons_zero]
          | succ n =>
            simp only [List.getElem?_cons_succ] at ha hb hc hd
            unfold VmafQualityRunner.zip4
            rw [List.getElem?_cons_succ]
            exact ih ys zs ws n ha hb hc hd

lemma ordered_scaled_of_keys (fd : ResultDict) (vifs adms ansnrs motions : List ℚ)
    (h1 : fd "VMAF_feature_vif_scores" = some vifs)
    (h2 : fd "VMAF_feature_adm_scores" = some adms)
    (h3 : fd "VMAF_feature_ansnr_scores" = some ansnrs)
    (h4 : fd "VMAF_feature_motion_scores" = some motions) :
    VmafQualityRunner.ordered_scaled_scores_list fd
      = some [VmafQualityRunner.rescaleList vifs (0, 1),
              VmafQualityRunner.rescaleList adms (2/5, 1),
              VmafQualityRunner.rescaleList ansnrs (10, 50),
              VmafQualityRunner.rescaleList motions (0, 20)] := by
  rw [VmafQualityRunner.ordered_scaled_scores_list,
    VmafQualityRunner.SVM_MODEL_ORDERED_SCORES_KEYS]
  rw [List.mapM_cons, List.mapM_cons, List.mapM_cons, List.mapM_cons, List.mapM_nil]
  have e1 : VmafQualityRunner.rescaleFor fd "VMAF_feature_vif_scores"
      = some (VmafQualityRunner.rescaleList vifs (0, 1)) := by
    unfold VmafQualityRunner.rescaleFor
    rw [h1]
    rfl
  have e2 : VmafQualityRunner.rescaleFor fd "VMAF_feature_adm_scores"
      = some (VmafQualityRunner.rescaleList adms (2/5, 1)) := by
    unfold VmafQualityRunner.rescaleFor
    rw [h2]
    rfl
  have e3 : VmafQualityRunner.rescaleFor fd "VMAF_feature_ansnr_scores"
      = some (VmafQualityRunner.rescaleList ansnrs (10, 50)) := by
    unfold VmafQualityRunner.rescaleFor
    rw [h3]
    rfl
  have e4 : VmafQualityRunner.rescaleFor fd "VMAF_feature_motion_scores"
      = some (VmafQualityRunner.rescaleList motions (0, 20)) := by
    unfold VmafQualityRunner.rescaleFor
    rw [h4]
    rfl
  rw [e1, e2, e3, e4]
  rfl

/-- C2 (amended): the per-frame vector fed to the model is the four-element
`[vif, adm, ansnr, motion]` vector of rescaled values, in the order fixed by
`SVM_MODEL_ORDERED_SCORES_KEYS`. -/
theorem C2_amended_vector_order (fd : ResultDict)
    (vifs adms ansnrs motions : List ℚ) (i : ℕ) (v a n m : ℚ)
    (h1 : fd "VMAF_feature_vif_scores" = some vifs)
    (h2 : fd "VMAF_feature_adm_scores" = some adms)
    (h3 : fd "VMAF_feature_ansnr_scores" = some ansnrs)
    (h4 : fd "VMAF_feature_motion_scores" = some motions)
    (hv : vifs[i]? = some v) (ha : adms[i]? = some a)
    (hn : ansnrs[i]? = some n) (hm : motions[i]? = some m) :
    ∃ vecs, VmafQualityRunner.frame_vectors fd = some vecs ∧
      vecs[i]? = some [VmafQualityRunner._rescale v (0, 1),
        VmafQualityRunner._rescale a (2/5, 1),
        VmafQualityRunner._rescale n (10, 50),
        VmafQualityRunner._rescale m (0, 20)] := by
  have ho := ordered_scaled_of_keys fd vifs adms ansnrs motions h1 h2 h3 h4
  have gv : (VmafQualityRunner.rescaleList vifs (0, 1))[i]?
      = some (VmafQualityRunner._rescale v (0, 1)) := by
    unfold VmafQualityRunner.rescaleList
    rw [List.getElem?_map, hv, Option.map_some']
  have ga : (VmafQualityRunner.rescaleList adms (2/5, 1))[i]?
      = some (VmafQualityRunner._rescale a (2/5, 1)) := by
    unfold VmafQualityRunner.rescaleList
    rw [List.getElem?_map, ha, Option.map_some']
  have gn : (VmafQualityRunner.rescaleList ansnrs (10, 50))[i]?
      = some (VmafQualityRunner._rescale n (10, 50)) := by
    unfold VmafQualityRunner.rescaleList
    rw [List.getElem?_map, hn, Option.map_some']
  have gm : (VmafQualityRunner.rescaleList motions (0, 20))[i]?
      = some (VmafQualityRunner._rescale m (0, 20)) := by
    unfold VmafQualityRunner.rescaleList
    rw [List.getElem?_map, hm, Option.map_some']
  refine ⟨(VmafQualityRunner.zip4 (VmafQualityRunner.rescaleList vifs (0, 1))
      (VmafQualityRunner.rescaleList adms (2/5, 1))
      (VmafQualityRunner.rescaleList ansnrs (10, 50))
      (VmafQualityRunner.rescaleList motions (0, 20))).map VmafQualityRunner.xsOfTuple,
    ?_, ?_⟩
  · unfold VmafQualityRunner.frame_vectors VmafQualityRunner.frame_tuples
    rw [ho]
    rfl
  · rw [List.getElem?_map, zip4_getElem _ _ _ _ i _ _ _ _ gv ga gn gm, Option.map_some']
    rfl

/-- Witness for C2 (amended) on frame 1 of the two-frame example. -/
theorem C2_amended_vector_order_witness :
    exampleFeatureDict "VMAF_feature_vif_scores" = some [1/2, 9/10] ∧
    ([(1 : ℚ)/2, 9/10][1]? = some (9/10 : ℚ)) ∧
    (∃ vecs, VmafQualityRunner.frame_vectors exampleFeatureDict = some vecs ∧
      vecs[1]? = some [VmafQualityRunner._rescale (9/10) (0, 1),
        VmafQualityRunner._rescale (4/5) (2/5, 1),
        VmafQualityRunner._rescale 40 (10, 50),
        VmafQualityRunner._rescale 15 (0, 20)]) :=
  ⟨rfl, rfl,
   C2_amended_vector_order exampleFeatureDict [1/2, 9/10] [3/5, 4/5] [30, 40] [5, 15]
     1 (9/10) (4/5) 40 15 rfl rfl rfl rfl rfl rfl rfl rfl⟩

/-! ## C8: the final Result is the feature Result plus one scores key -/

/-- C8: for both fusion runners, the final dictionary keeps every entry of the
assembled feature Result unchanged and adds exactly one key — the runner's own
scores key — holding the fused score series (assuming, as the assembler
guarantees, that the feature Result does not already use that key). -/
theorem C8_merge_preserves_features (predict : List ℚ → ℚ) (fd : ResultDict)
    (scores : List ℚ) (getxs : ResultDict → List (List ℚ))
    (predictList : List (List ℚ) → List ℚ) (fd2 : ResultDict)
    (hfd : fd (QualityRunner.get_scores_key VmafQualityRunner.TYPE) = none)
    (hs : VmafQualityRunner.vmafScores predict fd = some scores)
    (hfd2 : fd2 (QualityRunner.get_scores_key VmaftQualityRunner.TYPE) = none) :
    (∃ res, VmafQualityRunner._run_on_asset predict fd = some res ∧
      (∀ k v, fd k = some v → res k = some v) ∧
      res (QualityRunner.get_scores_key VmafQualityRunner.TYPE) = some scores ∧
      (∀ k, res k ≠ fd k → k = QualityRunner.get_scores_key VmafQualityRunner.TYPE)) ∧
    ((∀ k v, fd2 k = some v →
        VmaftQualityRunner._run_on_asset getxs predictList fd2 k = some v) ∧
     VmaftQualityRunner._run_on_asset getxs predictList fd2
         (QualityRunner.get_scores_key VmaftQualityRunner.TYPE)
       = some (VmaftQualityRunner.ys_pred_clipped getxs predictList fd2) ∧
     (∀ k, VmaftQualityRunner._run_on_asset getxs predictList fd2 k ≠ fd2 k →
       k = QualityRunner.get_scores_key VmaftQualityRunner.TYPE)) := by
  constructor
  · refine ⟨fun k =>
      if k = QualityRunner.get_scores_key VmafQualityRunner.TYPE then some scores
      else fd k, ?_, ?_, ?_, ?_⟩
    · unfold VmafQualityRunner._run_on_asset
      rw [hs, Option.map_some']
    · intro k v hkv
      by_cases hk : k = QualityRunner.get_scores_key VmafQualityRunner.TYPE
      · subst hk
        rw [hfd] at hkv
        exact absurd hkv (by simp)
      · exact (if_neg hk).trans hkv
    · exact if_pos rfl
    · intro k hk
      by_contra hne
      exact hk (if_neg hne)
  · refine ⟨?_, ?_, ?_⟩
    · intro k v hkv
      by_cases hk : k = QualityRunner.get_scores_key VmaftQualityRunner.TYPE
      · subst hk
        rw [hfd2] at hkv
        exact absurd hkv (by simp)
      · exact (if_neg hk).trans hkv
    · exact if_pos rfl
    · intro k hk
      by_contra hne
      exact hk (if_neg hne)

/-- Witness for C8 on the two-frame example (VMAF side) and an empty feature
dictionary (VMAFT side). -/
theorem C8_merge_preserves_features_witness :
    exampleFeatureDict (QualityRunner.get_scores_key VmafQualityRunner.TYPE) = none ∧
    VmafQualityRunner.vmafScores constPredict50 exampleFeatureDict = some [50, 50] ∧
    ((∃ res, VmafQualityRunner._run_on_asset constPredict50 exampleFeatureDict = some res ∧
      (∀ k v, exampleFeatureDict k = some v → res k = some v) ∧
      res (QualityRunner.get_scores_key VmafQualityRunner.TYPE) = some [50, 50] ∧
      (∀ k, res k ≠ exampleFeatureDict k →
        k = QualityRunner.get_scores_key VmafQualityRunner.TYPE)) ∧
    ((∀ k v, (fun _ : String => (none : Option (List ℚ))) k = some v →
        VmaftQualityRunner._run_on_asset (fun _ => []) (fun _ => [7]) (fun _ => none) k = some v) ∧
     VmaftQualityRunner._run_on_asset (fun _ => []) (fun _ => [7]) (fun _ => none)
         (QualityRunner.get_scores_key VmaftQualityRunner.TYPE)
       = some (VmaftQualityRunner.ys_pred_clipped (fun _ => []) (fun _ => [7]) (fun _ => none)) ∧
     (∀ k, VmaftQualityRunner._run_on_asset (fun _ => []) (fun _ => [7]) (fun _ => none) k
          ≠ (fun _ : String => (none : Option (List ℚ))) k →
       k = QualityRunner.get_scores_key VmaftQualityRunner.TYPE))) :=
  ⟨rfl, vmafScores_eval,
   C8_merge_preserves_features constPredict50 exampleFeatureDict [50, 50]
     (fun _ => []) (fun _ => [7]) (fun _ => none) rfl vmafScores_eval rfl⟩

/-! ## PSNR log parsing: loop characterization -/

lemma filterMap_length_of_isSome {α β : Type} (f : α → Option β) (l : List α)
    (h : ∀ a ∈ l, (f a).isSome) : (l.filterMap f).length = l.length := by
  induction l with
  | nil => rfl
  | cons a t ih =>
    obtain ⟨b, hb⟩ := Option.isSome_iff_exists.mp (h a (List.mem_cons_self a t))
    rw [List.filterMap_cons_some hb, List.length_cons, List.length_cons,
      ih (fun x hx => h x (List.mem_cons_of_mem a hx))]

lemma parseLoop_some_spec (lines : List (List Char)) : ∀ (c : ℕ) (r : List ℚ),
    PsnrQualityRunner.parseLoop lines c = some r →
    ((lines.filterMap PsnrQualityRunner.matchLine).map
        (fun p => PsnrQualityRunner.natOfDigits p.1)
      = List.range' c (lines.filterMap PsnrQualityRunner.matchLine).length ∧
     (∀ p ∈ lines.filterMap PsnrQualityRunner.matchLine,
        (PsnrQualityRunner.pyFloat p.2).isSome) ∧
     r = (lines.filterMap PsnrQualityRunner.matchLine).filterMap
        (fun p => PsnrQualityRunner.pyFloat p.2)) := by
  induction lines with
  | nil =>
    intro c r h
    simp only [PsnrQualityRunner.parseLoop, Option.some.injEq] at h
    subst h
    simp
  | cons line rest ih =>
    intro c r h
    simp only [PsnrQualityRunner.parseLoop] at h
    cases hml : PsnrQualityRunner.matchLine line with
    | none =>
      rw [hml] at h
      rw [List.filterMap_cons_none hml]
      exact ih c r h
    | some p =>
      obtain ⟨ds, vs⟩ := p
      rw [hml] at h
      dsimp only at h
      rw [List.filterMap_cons_some hml]
      by_cases hidx : PsnrQualityRunner.natOfDigits ds = c
      · rw [if_pos hidx] at h
        cases hpf : PsnrQualityRunner.pyFloat vs with
        | none =>
          rw [hpf] at h
          exact absurd h (by simp)
        | some v =>
          rw [hpf] at h
          dsimp only at h
          cases hrec : PsnrQualityRunner.parseLoop rest (c + 1) with
          | none =>
            rw [hrec] at h
            exact absurd h (by simp)
          | some tl =>
            rw [hrec, Option.map_some'] at h
            simp only [Option.some.injEq] at h
            subst h
            obtain ⟨hmap, hall, hr⟩ := ih (c + 1) tl hrec
            refine ⟨?_, ?_, ?_⟩
            · rw [List.length_cons, List.range'_succ, List.map_cons, hidx, hmap]
            · intro q hq
              rcases List.mem_cons.mp hq with hq | hq
              · subst hq
                rw [hpf]
                rfl
              · exact hall q hq
            · have hstep : List.filterMap
                    (fun p : List Char × List Char => PsnrQualityRunner.pyFloat p.2)
                    ((ds, vs) :: rest.filterMap PsnrQualityRunner.matchLine)
                  = v :: List.filterMap (fun p => PsnrQualityRunner.pyFloat p.2)
                      (rest.filterMap PsnrQualityRunner.matchLine) :=
                List.filterMap_cons_some hpf
              rw [hstep, hr]
      · rw [if_neg hidx] at h
        exact absurd h (by simp)

lemma parseLoop_eq_of_spec (lines : List (List Char)) : ∀ c : ℕ,
    (lines.filterMap PsnrQualityRunner.matchLine).map
        (fun p => PsnrQualityRunner.natOfDigits p.1)
      = List.range' c (lines.filterMap PsnrQualityRunner.matchLine).length →
    (∀ p ∈ lines.filterMap PsnrQualityRunner.matchLine,
      (PsnrQualityRunner.pyFloat p.2).isSome) →
    PsnrQualityRunner.parseLoop lines c
      = some ((lines.filterMap PsnrQualityRunner.matchLine).filterMap
          (fun p => PsnrQualityRunner.pyFloat p.2)) := by
  induction lines with
  | nil =>
    intro c _ _
    simp [PsnrQualityRunner.parseLoop]
  | cons line rest ih =>
    intro c hmap hall
    cases hml : PsnrQualityRunner.matchLine line with
    | none =>
      rw [List.filterMap_cons_none hml] at hmap hall ⊢
      simp only [PsnrQualityRunner.parseLoop, hml]
      exact ih c hmap hall
    | some p =>
      obtain ⟨ds, vs⟩ := p
      rw [List.filterMap_cons_some hml] at hmap hall ⊢
      rw [List.length_cons, List.range'_succ, List.map_cons] at hmap
      simp only [List.cons.injEq] at hmap
      obtain ⟨hidx, hmap2⟩ := hmap
      have hv : (PsnrQualityRunner.pyFloat vs).isSome :=
        hall (ds, vs) (List.mem_cons_self _ _)
      obtain ⟨v, hpf⟩ := Option.isSome_iff_exists.mp hv
      have hall2 : ∀ p ∈ rest.filterMap PsnrQualityRunner.matchLine,
          (PsnrQualityRunner.pyFloat p.2).isSome :=
        fun q hq => hall q (List.mem_cons_of_mem _ hq)
      have hrec := ih (c + 1) hmap2 hall2
      have hstep : List.filterMap
            (fun p : List Char × List Char => PsnrQualityRunner.pyFloat p.2)
            ((ds, vs) :: rest.filterMap PsnrQualityRunner.matchLine)
          = v :: List.filterMap (fun p => PsnrQualityRunner.pyFloat p.2)
              (rest.filterMap PsnrQualityRunner.matchLine) :=
        List.filterMap_cons_some hpf
      simp only [PsnrQualityRunner.parseLoop, hml, hidx, if_true, eq_self_iff_true,
        hpf, hrec, Option.map_some']
      rw [hstep]

/-! ## C7: when the PSNR log parser fails -/

/-- C7 (amended): `_get_quality_scores` fails exactly when the matched lines
are empty, or their frame indices are not `0, 1, 2, ...` in order, or some
matched line's value token is not a valid float literal; on success it returns
the parsed values, in frame-index order, under the key `PSNR_scores`. -/
theorem C7_parse_characterization (lines : List (List Char)) :
    (PsnrQualityRunner._get_quality_scores lines = none ↔
      (lines.filterMap PsnrQualityRunner.matchLine = [] ∨
       (lines.filterMap PsnrQualityRunner.matchLine).map
           (fun p => PsnrQualityRunner.natOfDigits p.1)
         ≠ List.range (lines.filterMap PsnrQualityRunner.matchLine).length ∨
       ∃ p ∈ lines.filterMap PsnrQualityRunner.matchLine,
         PsnrQualityRunner.pyFloat p.2 = none)) ∧
    (∀ scores, PsnrQualityRunner._get_quality_scores lines = some scores →
      scores = (lines.filterMap PsnrQualityRunner.matchLine).filterMap
          (fun p => PsnrQualityRunner.pyFloat p.2) ∧
      PsnrQualityRunner.quality_result lines
        = some (fun k => if k = QualityRunner.get_scores_key PsnrQualityRunner.TYPE
            then some scores else none)) := by
  constructor
  · constructor
    · intro hn
      by_contra hcon
      push_neg at hcon
      obtain ⟨hne, hmap, hall⟩ := hcon
      have hall2 : ∀ p ∈ lines.filterMap PsnrQualityRunner.matchLine,
          (PsnrQualityRunner.pyFloat p.2).isSome :=
        fun p hp => Option.ne_none_iff_isSome.mp (hall p hp)
      have hpl := parseLoop_eq_of_spec lines 0
        (hmap.trans (List.range_eq_range' _)) hall2
      unfold PsnrQualityRunner._get_quality_scores at hn
      rw [hpl] at hn
      dsimp only at hn
      have hlen := filterMap_length_of_isSome _ _ hall2
      have hfne : (lines.filterMap PsnrQualityRunner.matchLine).filterMap
          (fun p => PsnrQualityRunner.pyFloat p.2) ≠ [] := by
        intro he
        rw [he] at hlen
        exact hne (List.length_eq_zero.mp hlen.symm)
      have hbe : ¬(((lines.filterMap PsnrQualityRunner.matchLine).filterMap
          (fun p => PsnrQualityRunner.pyFloat p.2)).isEmpty = true) :=
        fun hh => hfne (List.isEmpty_iff.mp hh)
      rw [if_neg hbe] at hn
      exact absurd hn (by simp)
    · intro hdisj
      unfold PsnrQualityRunner._get_quality_scores
      rcases hdisj with hempty | hmap | ⟨p, hp, hpf⟩
      · have hpl := parseLoop_eq_of_spec lines 0 (by rw [hempty]; rfl)
          (by rw [hempty]; intro q hq; cases hq)
        rw [hpl, hempty]
        rfl
      · cases hpl : PsnrQualityRunner.parseLoop lines 0 with
        | none => rfl
        | some r =>
          obtain ⟨hm, -, -⟩ := parseLoop_some_spec lines 0 r hpl
          rw [← List.range_eq_range'] at hm
          exact absurd hm hmap
      · cases hpl : PsnrQualityRunner.parseLoop lines 0 with
        | none => rfl
        | some r =>
          obtain ⟨-, hall, -⟩ := parseLoop_some_spec lines 0 r hpl
          have := hall p hp
          rw [hpf] at this
          exact absurd this (by simp)
  · intro scores hsc
    unfold PsnrQualityRunner._get_quality_scores at hsc
    cases hpl : PsnrQualityRunner.parseLoop lines 0 with
    | none =>
      rw [hpl] at hsc
      exact absurd hsc (by simp)
    | some r =>
      rw [hpl] at hsc
      dsimp only at hsc
      by_cases hre : r.isEmpty
      · rw [if_pos hre] at hsc
        exact absurd hsc (by simp)
      · rw [if_neg hre] at hsc
        simp only [Option.some.injEq] at hsc
        subst hsc
        obtain ⟨-, -, hr⟩ := parseLoop_some_spec lines 0 r hpl
        refine ⟨hr, ?_⟩
        unfold PsnrQualityRunner.quality_result PsnrQualityRunner._get_quality_scores
        rw [hpl]
        dsimp only
        rw [if_neg hre]
        rfl

/-- Witness for C7 on the one-line log `"psnr: 0 25"`. -/
theorem C7_parse_characterization_witness :
    PsnrQualityRunner._get_quality_scores [goodLine] = some [25] ∧
    ([(25 : ℚ)] = ([goodLine].filterMap PsnrQualityRunner.matchLine).filterMap
        (fun p => PsnrQualityRunner.pyFloat p.2) ∧
     PsnrQualityRunner.quality_result [goodLine]
       = some (fun k => if k = QualityRunner.get_scores_key PsnrQualityRunner.TYPE
           then some [(25 : ℚ)] else none)) :=
  ⟨by decide, (C7_parse_characterization [goodLine]).2 [25] (by decide)⟩

/-- C7 (counterexample): the log whose single line is `"psnr: 0 -"` has one
matched line with index 0 — contiguous from 0 and nonempty — yet the parser
raises, because Python `float` rejects the captured value token `"-"`. -/
theorem C7_counterexample_float_error :
    PsnrQualityRunner._get_quality_scores [badValueLine] = none ∧
    [badValueLine].filterMap PsnrQualityRunner.matchLine = [(['0'], ['-'])] ∧
    ([badValueLine].filterMap PsnrQualityRunner.matchLine).map
        (fun p => PsnrQualityRunner.natOfDigits p.1)
      = List.range ([badValueLine].filterMap PsnrQualityRunner.matchLine).length ∧
    [badValueLine].filterMap PsnrQualityRunner.matchLine ≠ [] :=
  ⟨by decide, by decide, by decide, by decide⟩

/-! ## C10: non-matching lines are silently ignored -/

lemma interleaved_parseLoop {L L2 : List (List Char)}
    (h : PsnrQualityRunner.Interleaved L L2) :
    ∀ c, PsnrQualityRunner.parseLoop L2 c = PsnrQualityRunner.parseLoop L c := by
  induction h with
  | nil =>
    intro c
    rfl
  | keep l hI ih =>
    intro c
    simp only [PsnrQualityRunner.parseLoop]
    cases hml : PsnrQualityRunner.matchLine l with
    | none =>
      simp only [hml]
      exact ih c
    | some p =>
      obtain ⟨ds, vs⟩ := p
      simp only [hml]
      by_cases hidx : PsnrQualityRunner.natOfDigits ds = c
      · rw [if_pos hidx, if_pos hidx]
        cases hpf : PsnrQualityRunner.pyFloat vs with
        | none => simp only [hpf]
        | some v => simp only [hpf, ih (c + 1)]
      · rw [if_neg hidx, if_neg hidx]
  | extra l hml hI ih =>
    intro c
    simp only [PsnrQualityRunner.parseLoop, hml]
    exact ih c

/-- C10: inserting lines that fail the `psnr:` pattern anywhere in a log does
not change the outcome of `_get_quality_scores` at all — in particular, when
the original log yields scores, the padded log yields the same scores and no
error. -/
theorem C10_nonmatching_ignored (L L2 : List (List Char))
    (h : PsnrQualityRunner.Interleaved L L2) :
    PsnrQualityRunner._get_quality_scores L2 = PsnrQualityRunner._get_quality_scores L := by
  unfold PsnrQualityRunner._get_quality_scores
  rw [interleaved_parseLoop h 0]

/-- Witness for C10: two junk lines around `"psnr: 0 25"` change nothing. -/
theorem C10_nonmatching_ignored_witness :
    PsnrQualityRunner._get_quality_scores [noiseLineA, goodLine, noiseLineB]
      = PsnrQualityRunner._get_quality_scores [goodLine] ∧
    PsnrQualityRunner._get_quality_scores [goodLine] = some [25] :=
  ⟨C10_nonmatching_ignored [goodLine] [noiseLineA, goodLine, noiseLineB]
     (PsnrQualityRunner.Interleaved.extra noiseLineA (by decide)
       (PsnrQualityRunner.Interleaved.keep goodLine
         (PsnrQualityRunner.Interleaved.extra noiseLineB (by decide)
           PsnrQualityRunner.Interleaved.nil))),
   by decide⟩

/-! ## Supporting facts for the motion-correction finding: on the fusion path
the motion value handed to `_post_correction` is rescaled into `[0, 1]`, so
the `motion > 12` branch can never fire there. -/

lemma rescaled_motion_le_one (m : ℚ) : VmafQualityRunner._rescale m (0, 20) ≤ 1 := by
  unfold VmafQualityRunner._rescale VmafQualityRunner.np_clip
  dsimp only
  rw [div_le_one (by norm_num)]
  have : min 20 (max m 0) ≤ 20 := min_le_left _ _
  linarith

lemma post_correction_of_le_one (m s : ℚ) (hm : m ≤ 1) :
    VmafQualityRunner._post_correction m s = VmafQualityRunner.clampScore s := by
  unfold VmafQualityRunner._post_correction
  rw [if_neg (by linarith)]
